import Mathlib

/-! Shallow embedding of `src/api/simple_http_server.py`, a simple HTTP server
built on the Python standard library. Pure computation is translated directly;
Python exceptions are modelled with `Except PyExn`; outcomes of external
library calls (UTF-8 decode + JSON parse of the body, socket bind, the agent
coroutine driven by the event loop) are supplied as explicit data, so every
definition stays executable. -/

/-- Python exception, identified by its message text, that is `str(e)`. -/
structure PyExn where
  msg : String
deriving DecidableEq

/-- JSON values: the image of `json.loads` and the input of `json.dumps`.
Object fields are kept in insertion order, matching `json.dumps` output. -/
inductive JValue where
  | null : JValue
  | bool : Bool → JValue
  | num : Int → JValue
  | str : String → JValue
  | arr : List JValue → JValue
  | obj : List (String × JValue) → JValue

/-- First-match lookup in a JSON object field list (Python dict lookup;
objects produced by `json.loads` have unique keys). -/
def lookupField : List (String × JValue) → String → Option JValue
  | [], _ => none
  | (k, v) :: rest, key => if k = key then some v else lookupField rest key

/-- Python `x == s` for a string literal `s`: true exactly when `x` is that
string (comparison of a non-string value with a string is `False`). -/
def jvStrEq : JValue → String → Bool
  | .str t, s => t == s
  | _, _ => false

/-- Python subscript `x[k]` with a string key `k`: dict lookup raising
`KeyError` on a missing key, `TypeError` on non-dict values. -/
def pyGetItem : JValue → String → Except PyExn JValue
  | .obj fs, k =>
    match lookupField fs k with
    | some v => .ok v
    | none => .error ⟨"\x27" ++ k ++ "\x27"⟩
  | .arr _, _ => .error ⟨"list indices must be integers or slices, not str"⟩
  | .str _, _ => .error ⟨"string indices must be integers"⟩
  | .num _, _ => .error ⟨"\x27int\x27 object is not subscriptable"⟩
  | .bool _, _ => .error ⟨"\x27bool\x27 object is not subscriptable"⟩
  | .null, _ => .error ⟨"\x27NoneType\x27 object is not subscriptable"⟩

/-- Python `x.get(k, default)`: defaulting dict lookup; a non-dict value has
no `get` attribute and raises `AttributeError`. -/
def pyDictGet (x : JValue) (k : String) (dflt : JValue) : Except PyExn JValue :=
  match x with
  | .obj fs => .ok ((lookupField fs k).getD dflt)
  | .arr _ => .error ⟨"\x27list\x27 object has no attribute \x27get\x27"⟩
  | .str _ => .error ⟨"\x27str\x27 object has no attribute \x27get\x27"⟩
  | .num _ => .error ⟨"\x27int\x27 object has no attribute \x27get\x27"⟩
  | .bool _ => .error ⟨"\x27bool\x27 object has no attribute \x27get\x27"⟩
  | .null => .error ⟨"\x27NoneType\x27 object has no attribute \x27get\x27"⟩

/-- Substring test used to model Python `key in some_string`. -/
def strContains (s pat : String) : Bool :=
  2 ≤ (s.splitOn pat).length

/-- Python membership `k in x` for a string `k`: key membership for dicts,
element membership for lists, substring test for strings, `TypeError` for
non-iterable values. -/
def pyIn (k : String) : JValue → Except PyExn Bool
  | .obj fs => .ok (lookupField fs k).isSome
  | .arr xs => .ok (xs.any (fun j => jvStrEq j k))
  | .str s => .ok (strContains s k)
  | .num _ => .error ⟨"argument of type \x27int\x27 is not iterable"⟩
  | .bool _ => .error ⟨"argument of type \x27bool\x27 is not iterable"⟩
  | .null => .error ⟨"argument of type \x27NoneType\x27 is not iterable"⟩

/-- Decimal value of a digit run. -/
def natOfDigits (l : List Char) : Nat :=
  l.foldl (fun acc c => acc * 10 + (c.toNat - 48)) 0

/-- Core of `int(s)` after whitespace stripping: an optional sign followed by
a nonempty run of digits; anything else is rejected. -/
def pyIntChars? : List Char → Option Int
  | [] => none
  | c :: rest =>
    if c = '-' then
      if !rest.isEmpty && rest.all Char.isDigit then
        some (-(Int.ofNat (natOfDigits rest)))
      else none
    else if c = '+' then
      if !rest.isEmpty && rest.all Char.isDigit then
        some (Int.ofNat (natOfDigits rest))
      else none
    else
      if (c :: rest).all Char.isDigit then
        some (Int.ofNat (natOfDigits (c :: rest)))
      else none

/-- Python `int(s)` on a string: optional surrounding whitespace, optional
sign, then a nonempty run of digits; anything else raises `ValueError`. -/
def pyIntStr? (s : String) : Option Int :=
  pyIntChars?
    (((s.data.dropWhile Char.isWhitespace).reverse.dropWhile Char.isWhitespace).reverse)

/-- Message of the `TypeError` raised by `int(None)`, which is what
`int(self.headers[header])` does when the header is absent. -/
def intNoneMsg : String :=
  "int() argument must be a string, a bytes-like object or a real number, not \x27NoneType\x27"

/-- Message of the `ValueError` raised by `int(s)` on a non-numeric string. -/
def intBadLiteralMsg (s : String) : String :=
  "invalid literal for int() with base 10: \x27" ++ s ++ "\x27"

/-- Line 88: `int(self.headers[header])` where a missing header yields `None`.
`int(None)` raises `TypeError`; a non-numeric string raises `ValueError`. -/
def pyIntOfHeader : Option String → Except PyExn Int
  | none => .error ⟨intNoneMsg⟩
  | some s =>
    match pyIntStr? s with
    | some n => .ok n
    | none => .error ⟨intBadLiteralMsg s⟩

/-- Outcome of `post_data.decode(utf8)` followed by `json.loads` on the bytes
read from the request body. `decodeError` is a `UnicodeDecodeError` (not a
`JSONDecodeError`, so the inner `except` at line 94 does not catch it);
`jsonError` is a `JSONDecodeError`; `value j` is a successful parse. -/
inductive BodyDecode where
  | decodeError : BodyDecode
  | jsonError : BodyDecode
  | value : JValue → BodyDecode

/-- Message of the `UnicodeDecodeError` raised when the body bytes are not
valid UTF-8 (the position details of the real message are immaterial). -/
def utf8DecodeErrMsg : String :=
  "\x27utf-8\x27 codec can\x27t decode the request body"

/-- A POST request as seen by `do_POST`: the raw `Content-Length` header
value (absent or textual) and the decode/parse outcome of the body bytes. -/
structure PostRequest where
  contentLength : Option String
  body : BodyDecode

/-- Response body: JSON document (via `_send_json_response`) or HTML document
(via `_send_html_response`). -/
inductive RespBody where
  | json : JValue → RespBody
  | html : String → RespBody

/-- An HTTP response as written to the client: wire status code, body, and
whether the `Access-Control-Allow-Origin: *` header is present (it is set by
`_send_json_response` only). -/
structure HttpResponse where
  status : Nat
  body : RespBody
  cors : Bool

/-- Ambient context of one request: whether writes to the client socket
succeed (`self.wfile.write` raises, for example `BrokenPipeError`, when the
client has closed the connection), and the value `datetime.now().isoformat()`
returns during this request. -/
structure Ctx where
  sendOk : Bool
  now : String
deriving DecidableEq

/-- Exception raised by a failing socket write. -/
def brokenPipeExn : PyExn := ⟨"Broken pipe"⟩

/-- Lines 115 to 123, `_send_json_response`: write status line and headers,
then the JSON body, with `Access-Control-Allow-Origin: *`. A failing socket
write raises. -/
def send_json_response (ctx : Ctx) (status_code : Nat) (data : JValue) :
    Except PyExn HttpResponse :=
  if ctx.sendOk then .ok ⟨status_code, .json data, true⟩ else .error brokenPipeExn

/-- Lines 125 to 130, `_send_html_response`: write an HTML body, without the
CORS header. -/
def send_html_response (ctx : Ctx) (status_code : Nat) (html : String) :
    Except PyExn HttpResponse :=
  if ctx.sendOk then .ok ⟨status_code, .html html, false⟩ else .error brokenPipeExn

/-- The error body built by `_send_error` (lines 132 to 138): keys `error`,
`status_code`, `timestamp`, in that order, with `status_code` repeating the
wire status code. -/
def errEnvelope (msg : String) (status_code : Nat) (now : String) : JValue :=
  .obj [("error", .str msg), ("status_code", .num (Int.ofNat status_code)),
        ("timestamp", .str now)]

/-- Lines 132 to 138, `_send_error`: send the error envelope as a JSON
response with the same status code. -/
def send_error (ctx : Ctx) (status_code : Nat) (msg : String) :
    Except PyExn HttpResponse :=
  send_json_response ctx status_code (errEnvelope msg status_code ctx.now)

/-- The chat input dict built at lines 220 to 222 and passed to
`chatbot.process`. -/
structure ChatInput where
  message : JValue
  sessionId : JValue
  context : JValue

/-- Outcome of `loop.run_until_complete(chatbot.process(...))`: either the
coroutine raises, or it returns a result value (a dict in normal use). -/
inductive ProcessOutcome where
  | raised : PyExn → ProcessOutcome
  | returned : JValue → ProcessOutcome

/-- The server instance state consulted by the handlers: the result of
`agent_manager.get_agent(default_chatbot_id)` (the default agent handle, as
the behaviour of its `process` coroutine), and `len(agent_manager.active_agents)`
used by `/health`. -/
structure ServerInstance where
  defaultAgent : Option (ChatInput → ProcessOutcome)
  activeAgentsCount : Nat

/-- Result of `_process_chat_sync`: the response dict, plus whether the
asynchronous scheduler (event loop) machinery at lines 211 to 223 was
reached. -/
structure ChatSyncResult where
  resp : JValue
  schedulerInvoked : Bool

/-- The error-shaped chat body `{status, message, timestamp}` built at lines
205 to 209, 234 to 238 and 242 to 246. -/
def errStatusObj (msg now : String) : JValue :=
  .obj [("status", .str "error"), ("message", .str msg), ("timestamp", .str now)]

/-- Body of the `try` block of `_process_chat_sync` after the agent lookup
(lines 211 to 238): acquire the event loop, build the chat input dict, drive
`chatbot.process`, and shape the reply. Any raise here is caught by the
enclosing `except` of `_process_chat_sync`. -/
def chat_attempt (now : String) (process : ChatInput → ProcessOutcome)
    (request_data : JValue) : Except PyExn JValue :=
  match pyGetItem request_data "message" with
  | .error e => .error e
  | .ok mv =>
    match pyDictGet request_data "session_id" (.str "default") with
    | .error e => .error e
    | .ok sv =>
      match pyDictGet request_data "context" (.obj []) with
      | .error e => .error e
      | .ok cv =>
        match process ⟨mv, sv, cv⟩ with
        | .raised e => .error e
        | .returned result =>
          match pyGetItem result "status" with
          | .error e => .error e
          | .ok st =>
            if jvStrEq st "success" then
              match pyGetItem result "response" with
              | .error e => .error e
              | .ok respv =>
                match pyDictGet request_data "session_id" (.str "default") with
                | .error e => .error e
                | .ok sv2 =>
                  match pyDictGet result "conversation_length" (.num 0) with
                  | .error e => .error e
                  | .ok clv =>
                    .ok (.obj [("status", .str "success"), ("response", respv),
                               ("session_id", sv2), ("timestamp", .str now),
                               ("conversation_length", clv)])
            else
              match pyDictGet result "message" (.str "ChatBot处理失败") with
              | .error e => .error e
              | .ok msgv =>
                .ok (.obj [("status", .str "error"), ("message", msgv),
                           ("timestamp", .str now)])

/-- Lines 199 to 246, `_process_chat_sync`: if `get_agent` returns no default
agent, answer the fixed error dict without touching the event loop; otherwise
drive the agent call, converting any exception into an error dict carrying
`str(e)`. -/
def process_chat_sync (now : String) (inst : ServerInstance)
    (request_data : JValue) : ChatSyncResult :=
  match inst.defaultAgent with
  | none => ⟨errStatusObj "ChatBot未初始化" now, false⟩
  | some process =>
    match chat_attempt now process request_data with
    | .ok j => ⟨j, true⟩
    | .error e => ⟨errStatusObj e.msg now, true⟩

/-- The `try` block of the `/chat` branch of `do_POST` (lines 86 to 109):
read `Content-Length`, read and parse the body, check the `message` field,
then either process the chat synchronously or report an uninitialized
server. The two `_send_error(400, ...)` calls and the final sends happen
inside the `try`. -/
def chat_try_block (ctx : Ctx) (server_instance : Option ServerInstance)
    (req : PostRequest) : Except PyExn HttpResponse :=
  match pyIntOfHeader req.contentLength with
  | .error e => .error e
  | .ok _ =>
    match req.body with
    | .decodeError => .error ⟨utf8DecodeErrMsg⟩
    | .jsonError => send_error ctx 400 "Invalid JSON"
    | .value request_data =>
      match pyIn "message" request_data with
      | .error e => .error e
      | .ok false => send_error ctx 400 "Missing \x27message\x27 field"
      | .ok true =>
        match server_instance with
        | some inst =>
          send_json_response ctx 200 (process_chat_sync ctx.now inst request_data).resp
        | none => send_error ctx 500 "Server not initialized"

/-- Lines 80 to 113, `do_POST`, on the already parsed path
`urlparse(self.path).path`: the `/chat` branch runs `chat_try_block` under a
catch-all `except Exception` that answers 500 with the exception message; any
other path answers 404. The 404 branch is outside the `try`. -/
def do_POST (ctx : Ctx) (server_instance : Option ServerInstance)
    (path : String) (req : PostRequest) : Except PyExn HttpResponse :=
  if path = "/chat" then
    match chat_try_block ctx server_instance req with
    | .ok r => .ok r
    | .error e => send_error ctx 500 ("Internal server error: " ++ e.msg)
  else
    send_error ctx 404 "Not Found"

/-- The metadata document sent for GET `/` (lines 35 to 45). -/
def rootInfo : JValue :=
  .obj [("message", .str "Welcome to Polytool API"),
        ("version", .str "0.1.0"),
        ("docs", .str "Currently using simple HTTP server. Install fastapi for full features."),
        ("status", .str "running"),
        ("endpoints", .obj [("/", .str "API信息"),
                            ("/health", .str "健康检查"),
                            ("/chat", .str "POST - 与ChatBot对话")])]

/-- The fixed HTML document sent for GET `/docs` (lines 54 to 76); braces of
the embedded JSON sample are escaped, the exact prose is immaterial. -/
def docsHtml : String :=
  "<!DOCTYPE html><html><head><title>Polytool API文档</title></head><body>" ++
  "<h1>Polytool API 简单文档</h1><h2>可用端点:</h2><ul>" ++
  "<li><strong>GET /</strong> - API信息</li>" ++
  "<li><strong>GET /health</strong> - 健康检查</li>" ++
  "<li><strong>POST /chat</strong> - 与ChatBot对话</li></ul>" ++
  "<h3>POST /chat 示例:</h3><pre>\x7b \"message\": \"你好\", \"session_id\": \"test_session\" \x7d</pre>" ++
  "<p>注意：这是简化版HTTP服务器。要获得完整功能，请安装 fastapi 和 uvicorn。</p>" ++
  "</body></html>"

/-- Lines 29 to 78, `do_GET`, on the already parsed path
`urlparse(self.path).path`. There is no `try` in `do_GET`: an exception in a
GET branch propagates out of the handler. -/
def do_GET (ctx : Ctx) (server_instance : Option ServerInstance)
    (path : String) : Except PyExn HttpResponse :=
  if path = "/" then
    send_json_response ctx 200 rootInfo
  else if path = "/health" then
    send_json_response ctx 200
      (.obj [("status", .str "healthy"),
             ("timestamp", .str ctx.now),
             ("server", .str "simple_http"),
             ("agents_count", .num (Int.ofNat (match server_instance with
               | some inst => inst.activeAgentsCount
               | none => 0)))])
  else if path = "/docs" then
    send_html_response ctx 200 docsHtml
  else
    send_error ctx 404 "Not Found"

/-- Wire status of a handler outcome: `some code` when a response was written,
`none` when an exception escaped the handler and nothing was sent. -/
def statusOf : Except PyExn HttpResponse → Option Nat
  | .ok r => some r.status
  | .error _ => none

/-- Checks that a response body is exactly the error envelope shape
`{error: string, status_code: integer, timestamp: string}` with the body
`status_code` equal to the wire status code and the timestamp of the request
context. -/
def errorEnvelopeShape (now : String) (r : HttpResponse) : Bool :=
  match r.body with
  | .json (.obj [("error", .str _), ("status_code", .num c), ("timestamp", .str t)]) =>
    decide (c = Int.ofNat r.status) && (t == now)
  | _ => false

/-- Outcome of `socket.bind((host, port))` for a given port, the host being
fixed: success, or an `OSError` of one of the interesting causes. All three
error constructors are subclasses of `socket.error = OSError` in Python. -/
inductive BindResult where
  | ok : BindResult
  | addrInUse : BindResult
  | permissionDenied : BindResult
  | invalidAddr : BindResult
deriving DecidableEq

/-- Lines 285 to 292, `_is_port_in_use`: try to bind a fresh test socket;
`except socket.error` turns EVERY bind failure, whatever its cause, into
`True` (port reported as in use). The test socket is released on exit. -/
def is_port_in_use (env : Nat → BindResult) (port : Nat) : Bool :=
  match env port with
  | .ok => false
  | .addrInUse => true
  | .permissionDenied => true
  | .invalidAddr => true

/-- Loop body of `_find_free_port` over `range(start_port + 1, start_port + 100)`:
`p` is the next candidate, the second argument counts the remaining
candidates. -/
def find_free_port_go (env : Nat → BindResult) : Nat → Nat → Except String Nat
  | _, 0 => .error "无法找到可用端口"
  | p, n + 1 =>
    if is_port_in_use env p then find_free_port_go env (p + 1) n else .ok p

/-- Lines 294 to 299, `_find_free_port`: probe the 99 ports
`start_port + 1 .. start_port + 99` in order, return the first not in use,
raise `RuntimeError` with the fixed message when all are occupied. -/
def find_free_port (env : Nat → BindResult) (start_port : Nat) : Except String Nat :=
  find_free_port_go env (start_port + 1) 99

/-- Lines 253 to 256 of `run`: the port selection phase. When the preferred
port is reported in use, delegate to `_find_free_port`; otherwise keep the
preferred port. -/
def run_select_port (env : Nat → BindResult) (port : Nat) : Except String Nat :=
  if is_port_in_use env port then find_free_port env port else .ok port

/-- String content of a JSON value when it is a string, used by the modelled
agent to read the incoming message. -/
def jvalAsString : JValue → String
  | .str s => s
  | _ => ""

/-- Modelled from the spec: `ChatBotAgent.process`. The class is imported
from the `agent` package, which is not under `src/`. Per the spec, `process`
is an asynchronous operation returning `{status, response|message,
conversation_length}`; a successful call appends one exchange to the
conversation history, so the reported `conversation_length` after a success
is the previous history length plus one. The reply text is an arbitrary
function of the message. -/
def chatBotProcess (reply : String → String) (histLen : Nat) :
    ChatInput → ProcessOutcome :=
  fun input =>
    .returned (.obj [("status", .str "success"),
                     ("response", .str (reply (jvalAsString input.message))),
                     ("conversation_length", .num (Int.ofNat (histLen + 1)))])

/-- Context with a working client socket and timestamp `T`. -/
def ctxT : Ctx := ⟨true, "T"⟩

/-- Context whose client socket rejects writes (client hung up). -/
def ctxF : Ctx := ⟨false, "T"⟩

/-- Server instance whose agent directory holds no default agent. -/
def instNoAgent : ServerInstance := ⟨none, 0⟩

/-- Server instance holding the spec-modelled default chatbot with an empty
history and an echoing reply function. -/
def instBot : ServerInstance := ⟨some (chatBotProcess (fun s => "Echo: " ++ s) 0), 1⟩

/-- Concrete request: valid length header, body `{"message": "hello"}`. -/
def reqHello : PostRequest := ⟨some "20", .value (.obj [("message", .str "hello")])⟩

/-- Concrete request: the `Content-Length` header is absent. -/
def reqNoCL : PostRequest := ⟨none, .value (.obj [("message", .str "hello")])⟩

/-- Concrete request: non-numeric `Content-Length` header. -/
def reqBadCL : PostRequest := ⟨some "abc", .value (.obj [("message", .str "hello")])⟩

/-- Concrete request: body bytes `not-json`, which fail to parse. -/
def reqNotJson : PostRequest := ⟨some "8", .jsonError⟩

/-- Concrete request: body `{"message": "", "session_id": "s1"}`: the
`message` key is present but its value is the empty string. -/
def reqEmptyMsg : PostRequest :=
  ⟨some "36", .value (.obj [("message", .str ""), ("session_id", .str "s1")])⟩

/-- Concrete request: body `{"message": "hello", "session_id": "s1"}`. -/
def reqHelloS1 : PostRequest :=
  ⟨some "42", .value (.obj [("message", .str "hello"), ("session_id", .str "s1")])⟩

/-- Bind environment where ports 8000 to 8004 are occupied and everything
above is free. -/
def envBusy : Nat → BindResult :=
  fun p => if p ≤ 8004 then .addrInUse else .ok

/-- Bind environment where binding port 8000 fails with a permission error
(for example a privileged port bound as an unprivileged user) and every other
port binds fine. -/
def envPerm : Nat → BindResult :=
  fun p => if p = 8000 then .permissionDenied else .ok

/-- Helper: a successful probe characterised over the remaining window. -/
theorem find_free_port_go_ok_iff (env : Nat → BindResult) (n : Nat) :
    ∀ p q : Nat, find_free_port_go env p n = .ok q ↔
      (p ≤ q ∧ q < p + n ∧ is_port_in_use env q = false ∧
       ∀ r, r < q → p ≤ r → is_port_in_use env r = true) := by
  induction n with
  | zero =>
    intro p q
    constructor
    · intro h; exact Except.noConfusion h
    · rintro ⟨h1, h2, -, -⟩; omega
  | succ n ih =>
    intro p q
    rw [find_free_port_go]
    by_cases hp : is_port_in_use env p = true
    · rw [if_pos hp, ih]
      constructor
      · rintro ⟨h1, h2, h3, h4⟩
        refine ⟨by omega, by omega, h3, fun r hr hpr => ?_⟩
        rcases Nat.lt_or_ge r (p + 1) with hl | hg
        · have he : r = p := by omega
          rw [he]; exact hp
        · exact h4 r hr hg
      · rintro ⟨h1, h2, h3, h4⟩
        have hpq : p ≠ q := by
          intro he
          rw [← he] at h3
          rw [hp] at h3
          exact Bool.noConfusion h3
        exact ⟨by omega, by omega, h3, fun r hr hpr => h4 r hr (by omega)⟩
    · have hp' : is_port_in_use env p = false := by
        cases hb : is_port_in_use env p
        · rfl
        · exact absurd hb hp
      rw [if_neg hp]
      constructor
      · intro h
        have he : p = q := Except.ok.inj h
        rw [← he]
        exact ⟨Nat.le_refl p, by omega, hp', fun r hr hpr => by omega⟩
      · rintro ⟨h1, h2, h3, h4⟩
        rcases Nat.eq_or_lt_of_le h1 with he | hl
        · rw [he]
        · have hc := h4 p hl (Nat.le_refl p)
          rw [hp'] at hc
          exact Bool.noConfusion hc

/-- Helper: when every port of the remaining window is reported in use, the
probe fails with the fixed message. -/
theorem find_free_port_go_error (env : Nat → BindResult) (n : Nat) :
    ∀ p : Nat, (∀ r, p ≤ r → r < p + n → is_port_in_use env r = true) →
      find_free_port_go env p n = .error "无法找到可用端口" := by
  induction n with
  | zero => intro p _; rfl
  | succ n ih =>
    intro p h
    have hp : is_port_in_use env p = true := h p (Nat.le_refl p) (by omega)
    rw [find_free_port_go, if_pos hp]
    exact ih (p + 1) (fun r h1 h2 => h r (by omega) (by omega))

/-- C4: when the preferred port is already reported bound, port acquisition
delegates to the probe over `preferred_port + 1 .. preferred_port + 99`,
which returns the first port of that window not in use, and fails with the
port-exhaustion error when all 99 ports of the window are occupied. -/
theorem C4_port_probe_window (env : Nat → BindResult) (start_port : Nat) :
    (is_port_in_use env start_port = true →
      run_select_port env start_port = find_free_port env start_port) ∧
    (∀ q, find_free_port env start_port = .ok q ↔
      (start_port + 1 ≤ q ∧ q ≤ start_port + 99 ∧ is_port_in_use env q = false ∧
       ∀ r, r < q → start_port + 1 ≤ r → is_port_in_use env r = true)) ∧
    ((∀ q, start_port + 1 ≤ q → q ≤ start_port + 99 → is_port_in_use env q = true) →
      find_free_port env start_port = .error "无法找到可用端口") := by
  refine ⟨?_, ?_, ?_⟩
  · intro h
    simp [run_select_port, h]
  · intro q
    rw [find_free_port, find_free_port_go_ok_iff]
    constructor
    · rintro ⟨h1, h2, h3, h4⟩
      exact ⟨h1, by omega, h3, h4⟩
    · rintro ⟨h1, h2, h3, h4⟩
      exact ⟨h1, by omega, h3, h4⟩
  · intro h
    exact find_free_port_go_error env 99 (start_port + 1)
      (fun r h1 h2 => h r h1 (by omega))

/-- Witness for C4 at a concrete bind environment: ports 8000 to 8004
occupied, port 8005 free, so the probe started from preferred port 8000
lands on 8005, the first free port of the window. -/
theorem C4_witness :
    run_select_port envBusy 8000 = find_free_port envBusy 8000 ∧
    (8001 ≤ 8005 ∧ 8005 ≤ 8099 ∧ is_port_in_use envBusy 8005 = false ∧
     ∀ r, r < 8005 → 8001 ≤ r → is_port_in_use envBusy r = true) :=
  ⟨(C4_port_probe_window envBusy 8000).1 (by decide),
   ((C4_port_probe_window envBusy 8000).2.1 8005).mp rfl⟩

/-- C3 (amended): a bind failure of any cause, permission errors and invalid
addresses included, makes `is_port_in_use` report the port as merely in use;
the failure is swallowed rather than propagated, and at the preferred port it
triggers probing of further ports via `find_free_port`. -/
theorem C3_bind_failure_swallowed (env : Nat → BindResult) (p : Nat)
    (h : env p ≠ BindResult.ok) :
    is_port_in_use env p = true ∧ run_select_port env p = find_free_port env p := by
  have hb : is_port_in_use env p = true := by
    cases he : env p with
    | ok => exact absurd he h
    | addrInUse => simp [is_port_in_use, he]
    | permissionDenied => simp [is_port_in_use, he]
    | invalidAddr => simp [is_port_in_use, he]
  exact ⟨hb, by simp [run_select_port, hb]⟩

/-- Counterexample to C3 as stated: binding port 8000 fails with a
permission error, yet the failure is not propagated; the port is treated as
occupied and probing continues, returning port 8001. -/
theorem C3_counterexample :
    envPerm 8000 = BindResult.permissionDenied ∧
    is_port_in_use envPerm 8000 = true ∧
    run_select_port envPerm 8000 = .ok 8001 := by
  refine ⟨rfl, rfl, ?_⟩
  rfl

/-- Witness for C3 (amended) at the concrete permission-failure environment. -/
theorem C3_witness :
    is_port_in_use envPerm 8000 = true ∧
    run_select_port envPerm 8000 = find_free_port envPerm 8000 :=
  C3_bind_failure_swallowed envPerm 8000 (by decide)

/-- Helper: a JSON send on a working socket yields the JSON response with the
CORS header. -/
theorem send_json_response_sendOk {ctx : Ctx} (h : ctx.sendOk = true)
    (code : Nat) (data : JValue) :
    send_json_response ctx code data = .ok ⟨code, .json data, true⟩ := by
  simp [send_json_response, h]

/-- Helper: an error send on a working socket yields the envelope response. -/
theorem send_error_sendOk {ctx : Ctx} (h : ctx.sendOk = true)
    (code : Nat) (msg : String) :
    send_error ctx code msg = .ok ⟨code, .json (errEnvelope msg code ctx.now), true⟩ := by
  simp [send_error, send_json_response, h]

/-- Helper: inversion of a successful JSON send. -/
theorem send_json_response_ok_inv {ctx : Ctx} {code : Nat} {data : JValue}
    {r : HttpResponse} (h : send_json_response ctx code data = .ok r) :
    r = ⟨code, .json data, true⟩ := by
  unfold send_json_response at h
  split at h
  · exact (Except.ok.inj h).symm
  · exact Except.noConfusion h

/-- Helper: inversion of a successful HTML send. -/
theorem send_html_response_ok_inv {ctx : Ctx} {code : Nat} {html : String}
    {r : HttpResponse} (h : send_html_response ctx code html = .ok r) :
    r = ⟨code, .html html, false⟩ := by
  unfold send_html_response at h
  split at h
  · exact (Except.ok.inj h).symm
  · exact Except.noConfusion h

/-- Helper: inversion of a successful error send. -/
theorem send_error_ok_inv {ctx : Ctx} {code : Nat} {msg : String}
    {r : HttpResponse} (h : send_error ctx code msg = .ok r) :
    r = ⟨code, .json (errEnvelope msg code ctx.now), true⟩ :=
  send_json_response_ok_inv h

/-- Helper: the envelope built by `send_error` satisfies the envelope-shape
checker with matching status code. -/
theorem errorEnvelopeShape_envelope (now msg : String) (code : Nat) :
    errorEnvelopeShape now ⟨code, .json (errEnvelope msg code now), true⟩ = true := by
  simp [errorEnvelopeShape, errEnvelope]

/-- C1 (amended): for every POST `/chat` with readable length header and a
JSON object body containing a `message` key, received when no default agent
exists in the agent directory, the server responds with HTTP status 200 (the
default status of `_send_json_response`, not 500), the body being the chat
result `{status: "error", message: "ChatBot未初始化", timestamp}`, produced
without invoking the asynchronous scheduler. -/
theorem C1_uninitialized_agent (ctx : Ctx) (inst : ServerInstance)
    (req : PostRequest) (fs : List (String × JValue)) (len : Int)
    (hsend : ctx.sendOk = true)
    (hcl : pyIntOfHeader req.contentLength = .ok len)
    (hb : req.body = .value (.obj fs))
    (hm : (lookupField fs "message").isSome = true)
    (hagent : inst.defaultAgent = none) :
    do_POST ctx (some inst) "/chat" req =
      .ok ⟨200, .json (errStatusObj "ChatBot未初始化" ctx.now), true⟩ ∧
    (process_chat_sync ctx.now inst (.obj fs)).schedulerInvoked = false := by
  constructor
  · simp [do_POST, chat_try_block, hcl, hb, pyIn, hm, process_chat_sync, hagent,
          send_json_response_sendOk hsend]
  · simp [process_chat_sync, hagent]

/-- Counterexample to C1 as stated: with no default agent, POST `/chat` with
body `{"message": "hello"}` is answered with wire status 200, not 500. -/
theorem C1_counterexample :
    statusOf (do_POST ctxT (some instNoAgent) "/chat" reqHello) = some 200 ∧
    statusOf (do_POST ctxT (some instNoAgent) "/chat" reqHello) ≠ some 500 := by
  refine ⟨rfl, ?_⟩
  decide

/-- Witness for C1 (amended) at a concrete request and agent-less instance. -/
theorem C1_witness :
    do_POST ctxT (some instNoAgent) "/chat" reqHello =
      .ok ⟨200, .json (errStatusObj "ChatBot未初始化" "T"), true⟩ ∧
    (process_chat_sync "T" instNoAgent (.obj [("message", .str "hello")])).schedulerInvoked
      = false :=
  C1_uninitialized_agent ctxT instNoAgent reqHello [("message", .str "hello")] 20
    rfl rfl rfl rfl rfl

/-- C2 (amended): a POST `/chat` whose `Content-Length` header is missing or
non-numeric raises inside the `try` block of `do_POST` and is answered by
the generic handler with wire code 500 and message
`Internal server error: ...`, not with 400. -/
theorem C2_bad_content_length_500 (ctx : Ctx) (si : Option ServerInstance)
    (req : PostRequest) (e : PyExn)
    (hsend : ctx.sendOk = true)
    (hcl : pyIntOfHeader req.contentLength = .error e) :
    do_POST ctx si "/chat" req =
      .ok ⟨500, .json (errEnvelope ("Internal server error: " ++ e.msg) 500 ctx.now),
           true⟩ := by
  simp [do_POST, chat_try_block, hcl, send_error_sendOk hsend]

/-- Counterexample to C2 as stated: with the `Content-Length` header absent,
POST `/chat` is answered with wire code 500, not 400. -/
theorem C2_counterexample :
    statusOf (do_POST ctxT (some instNoAgent) "/chat" reqNoCL) = some 500 ∧
    statusOf (do_POST ctxT (some instNoAgent) "/chat" reqNoCL) ≠ some 400 := by
  refine ⟨rfl, ?_⟩
  decide

/-- Witness for C2 (amended) at a concrete non-numeric header value. -/
theorem C2_witness :
    do_POST ctxT (some instNoAgent) "/chat" reqBadCL =
      .ok ⟨500, .json (errEnvelope ("Internal server error: " ++ intBadLiteralMsg "abc")
                        500 "T"), true⟩ :=
  C2_bad_content_length_500 ctxT (some instNoAgent) reqBadCL ⟨intBadLiteralMsg "abc"⟩
    rfl rfl

/-- C8: for every POST `/chat` with a readable `Content-Length` whose body
bytes decode as UTF-8 text that fails to parse as JSON, the server responds
400 with an error envelope whose error message is `Invalid JSON`. -/
theorem C8_invalid_json_400 (ctx : Ctx) (si : Option ServerInstance)
    (req : PostRequest) (len : Int)
    (hsend : ctx.sendOk = true)
    (hcl : pyIntOfHeader req.contentLength = .ok len)
    (hb : req.body = .jsonError) :
    do_POST ctx si "/chat" req =
      .ok ⟨400, .json (errEnvelope "Invalid JSON" 400 ctx.now), true⟩ := by
  simp [do_POST, chat_try_block, hcl, hb, send_error_sendOk hsend]

/-- Witness for C8 at the concrete request whose body is `not-json`. -/
theorem C8_witness :
    do_POST ctxT (some instNoAgent) "/chat" reqNotJson =
      .ok ⟨400, .json (errEnvelope "Invalid JSON" 400 "T"), true⟩ :=
  C8_invalid_json_400 ctxT (some instNoAgent) reqNotJson 8 rfl rfl rfl

/-- C9: every request whose method and path match no routing entry, that is
any GET path other than `/`, `/health`, `/docs` and any POST path other than
`/chat`, is answered 404 with a body of the error envelope shape. -/
theorem C9_unmatched_route_404 (ctx : Ctx) (si : Option ServerInstance)
    (path : String) (req : PostRequest)
    (hsend : ctx.sendOk = true) :
    (path ≠ "/" → path ≠ "/health" → path ≠ "/docs" →
      do_GET ctx si path = .ok ⟨404, .json (errEnvelope "Not Found" 404 ctx.now), true⟩) ∧
    (path ≠ "/chat" →
      do_POST ctx si path req =
        .ok ⟨404, .json (errEnvelope "Not Found" 404 ctx.now), true⟩) := by
  constructor
  · intro h1 h2 h3
    simp [do_GET, h1, h2, h3, send_error_sendOk hsend]
  · intro h
    simp [do_POST, h, send_error_sendOk hsend]

/-- Witness for C9 at the concrete unmatched path `/nope`. -/
theorem C9_witness :
    do_GET ctxT (some instNoAgent) "/nope" =
      .ok ⟨404, .json (errEnvelope "Not Found" 404 "T"), true⟩ ∧
    do_POST ctxT (some instNoAgent) "/nope" reqHello =
      .ok ⟨404, .json (errEnvelope "Not Found" 404 "T"), true⟩ :=
  ⟨(C9_unmatched_route_404 ctxT (some instNoAgent) "/nope" reqHello rfl).1
      (by decide) (by decide) (by decide),
   (C9_unmatched_route_404 ctxT (some instNoAgent) "/nope" reqHello rfl).2 (by decide)⟩

/-- C7 (amended): for POST `/chat` with readable length and a JSON object
body, the server responds 400 with the message naming the missing field
exactly when the object lacks the key `message`; when the key is present,
whatever its value (an empty string included), the request is not rejected
with 400 but answered 200 (chat result) or 500 (server not initialized). -/
theorem C7_message_key_check (ctx : Ctx) (si : Option ServerInstance)
    (req : PostRequest) (fs : List (String × JValue)) (len : Int)
    (hsend : ctx.sendOk = true)
    (hcl : pyIntOfHeader req.contentLength = .ok len)
    (hb : req.body = .value (.obj fs)) :
    (lookupField fs "message" = none →
      do_POST ctx si "/chat" req =
        .ok ⟨400, .json (errEnvelope "Missing \x27message\x27 field" 400 ctx.now),
             true⟩) ∧
    (∀ mv, lookupField fs "message" = some mv →
      statusOf (do_POST ctx si "/chat" req) = some 200 ∨
      statusOf (do_POST ctx si "/chat" req) = some 500) := by
  constructor
  · intro hnone
    simp [do_POST, chat_try_block, hcl, hb, pyIn, hnone, send_error_sendOk hsend]
  · intro mv hmv
    cases si with
    | none =>
      right
      simp [do_POST, chat_try_block, hcl, hb, pyIn, hmv, send_error_sendOk hsend,
            statusOf]
    | some inst =>
      left
      simp [do_POST, chat_try_block, hcl, hb, pyIn, hmv,
            send_json_response_sendOk hsend, statusOf]

/-- Counterexample to C7 as stated: the body
`{"message": "", "session_id": "s1"}` does not contain a non-empty message
string, yet the request is answered 200 (the empty message is processed),
not 400. -/
theorem C7_counterexample :
    statusOf (do_POST ctxT (some instBot) "/chat" reqEmptyMsg) = some 200 ∧
    statusOf (do_POST ctxT (some instBot) "/chat" reqEmptyMsg) ≠ some 400 := by
  refine ⟨rfl, ?_⟩
  decide

/-- Witness for C7 (amended) at the concrete body `{}` of spec test 3. -/
theorem C7_witness :
    do_POST ctxT (some instNoAgent) "/chat" (PostRequest.mk (some "2") (.value (.obj []))) =
      .ok ⟨400, .json (errEnvelope "Missing \x27message\x27 field" 400 "T"), true⟩ :=
  (C7_message_key_check ctxT (some instNoAgent)
    (PostRequest.mk (some "2") (.value (.obj []))) [] 2 rfl rfl rfl).1 rfl

/-- C6: for every POST `/chat` with readable length and a JSON object body
holding a `message` and a string `session_id`, against an initialized default
agent (the spec-modelled chatbot, whose successful `process` reports the
conversation history length after appending the new exchange), the server
responds 200 with `status: "success"`, a response string, the session id
echoed back, a timestamp, and a conversation length of at least 1. -/
theorem C6_happy_path (ctx : Ctx) (reply : String → String) (histLen cnt : Nat)
    (req : PostRequest) (fs : List (String × JValue)) (len : Int)
    (mv : JValue) (sid : String)
    (hsend : ctx.sendOk = true)
    (hcl : pyIntOfHeader req.contentLength = .ok len)
    (hb : req.body = .value (.obj fs))
    (hm : lookupField fs "message" = some mv)
    (hs : lookupField fs "session_id" = some (.str sid)) :
    do_POST ctx (some ⟨some (chatBotProcess reply histLen), cnt⟩) "/chat" req =
      .ok ⟨200, .json (.obj
        [("status", .str "success"),
         ("response", .str (reply (jvalAsString mv))),
         ("session_id", .str sid),
         ("timestamp", .str ctx.now),
         ("conversation_length", .num (Int.ofNat (histLen + 1)))]), true⟩ ∧
    1 ≤ Int.ofNat (histLen + 1) := by
  refine ⟨?_, Int.ofNat_le.mpr (Nat.succ_le_succ (Nat.zero_le histLen))⟩
  have hin : pyIn "message" (.obj fs) = .ok true := by
    simp [pyIn, hm]
  simp [do_POST, chat_try_block, hcl, hb, hin, process_chat_sync, chat_attempt,
        hm, hs, pyDictGet, chatBotProcess, pyGetItem, lookupField, jvStrEq,
        send_json_response_sendOk hsend]

/-- Witness for C6 at the concrete happy-path request of spec test 4. -/
theorem C6_witness :
    do_POST ctxT (some instBot) "/chat" reqHelloS1 =
      .ok ⟨200, .json (.obj
        [("status", .str "success"),
         ("response", .str "Echo: hello"),
         ("session_id", .str "s1"),
         ("timestamp", .str "T"),
         ("conversation_length", .num 1)]), true⟩ ∧
    1 ≤ (1 : Int) :=
  C6_happy_path ctxT (fun s => "Echo: " ++ s) 0 1 reqHelloS1
    [("message", .str "hello"), ("session_id", .str "s1")] 42 (.str "hello") "s1"
    rfl rfl rfl rfl rfl

/-- C5 (amended): only the POST `/chat` branch has a dispatcher-boundary
catch: any exception escaping its `try` block is caught and, when the
response channel is writable, converted into a generic 500 carrying the
exception message. The GET handlers and the POST unmatched-route branch
(whose 404 send sits outside the `try`) have no such boundary, so a
handler-level exception there (here a failing response write) propagates out
of `do_GET`, or out of `do_POST` on a non-`/chat` path, without any response
being sent. -/
theorem C5_dispatcher_boundary (ctx : Ctx) (si : Option ServerInstance)
    (req : PostRequest) (path : String) (e : PyExn) :
    (ctx.sendOk = true → chat_try_block ctx si req = .error e →
      do_POST ctx si "/chat" req =
        .ok ⟨500, .json (errEnvelope ("Internal server error: " ++ e.msg) 500 ctx.now),
             true⟩) ∧
    (ctx.sendOk = false → do_GET ctx si path = .error brokenPipeExn) ∧
    (ctx.sendOk = false → path ≠ "/chat" →
      do_POST ctx si path req = .error brokenPipeExn) := by
  refine ⟨?_, ?_, ?_⟩
  · intro hsend herr
    simp [do_POST, herr, send_error_sendOk hsend]
  · intro hsend
    unfold do_GET
    split
    · simp [send_json_response, hsend]
    · split
      · simp [send_json_response, hsend]
      · split
        · simp [send_html_response, hsend]
        · simp [send_error, send_json_response, hsend]
  · intro hsend hpath
    simp [do_POST, hpath, send_error, send_json_response, hsend]

/-- Counterexample to C5 as stated: a handler-level exception in the GET
`/health` branch (the response write raising on a closed connection) is not
caught anywhere in `do_GET` and terminates the handler with no response, so
not every route converts exceptions into a 500 response. -/
theorem C5_counterexample :
    do_GET ctxF (some instNoAgent) "/health" = .error brokenPipeExn ∧
    statusOf (do_GET ctxF (some instNoAgent) "/health") = none := ⟨rfl, rfl⟩

/-- Witness for C5 (amended): the `/chat` boundary converts a raised
`TypeError` into a 500 response, while a GET exception and a POST
unmatched-route exception both escape. -/
theorem C5_witness :
    do_POST ctxT (some instNoAgent) "/chat" reqNoCL =
      .ok ⟨500, .json (errEnvelope ("Internal server error: " ++ intNoneMsg) 500 "T"),
           true⟩ ∧
    do_GET ctxF (some instNoAgent) "/" = .error brokenPipeExn ∧
    do_POST ctxF (some instNoAgent) "/nope" reqNoCL = .error brokenPipeExn :=
  ⟨(C5_dispatcher_boundary ctxT (some instNoAgent) reqNoCL "/" ⟨intNoneMsg⟩).1 rfl rfl,
   (C5_dispatcher_boundary ctxF (some instNoAgent) reqNoCL "/" ⟨intNoneMsg⟩).2.1 rfl,
   (C5_dispatcher_boundary ctxF (some instNoAgent) reqNoCL "/nope" ⟨intNoneMsg⟩).2.2
     rfl (by decide)⟩

/-- C10: every error response the server emits, on GET and POST alike, has a
JSON body that is exactly the error envelope `{error, status_code, timestamp}`
with the body `status_code` equal to the wire status code of the response. -/
theorem C10_error_envelope_invariant (ctx : Ctx) (si : Option ServerInstance)
    (path : String) (req : PostRequest) (r : HttpResponse)
    (hok : do_GET ctx si path = .ok r ∨ do_POST ctx si path req = .ok r)
    (hstatus : r.status ≠ 200) :
    errorEnvelopeShape ctx.now r = true := by
  rcases hok with h | h
  · unfold do_GET at h
    split at h
    · rw [send_json_response_ok_inv h] at hstatus
      exact absurd rfl hstatus
    · split at h
      · rw [send_json_response_ok_inv h] at hstatus
        exact absurd rfl hstatus
      · split at h
        · rw [send_html_response_ok_inv h] at hstatus
          exact absurd rfl hstatus
        · rw [send_error_ok_inv h]
          exact errorEnvelopeShape_envelope ctx.now "Not Found" 404
  · unfold do_POST at h
    split at h
    · cases hc : chat_try_block ctx si req with
      | ok r2 =>
        rw [hc] at h
        have hr : r2 = r := Except.ok.inj h
        rw [hr] at hc
        unfold chat_try_block at hc
        split at hc
        · exact Except.noConfusion hc
        · split at hc
          · exact Except.noConfusion hc
          · rw [send_error_ok_inv hc]
            exact errorEnvelopeShape_envelope ctx.now "Invalid JSON" 400
          · split at hc
            · exact Except.noConfusion hc
            · rw [send_error_ok_inv hc]
              exact errorEnvelopeShape_envelope ctx.now "Missing \x27message\x27 field" 400
            · split at hc
              · rw [send_json_response_ok_inv hc] at hstatus
                exact absurd rfl hstatus
              · rw [send_error_ok_inv hc]
                exact errorEnvelopeShape_envelope ctx.now "Server not initialized" 500
      | error e =>
        rw [hc] at h
        rw [send_error_ok_inv h]
        exact errorEnvelopeShape_envelope ctx.now ("Internal server error: " ++ e.msg) 500
    · rw [send_error_ok_inv h]
      exact errorEnvelopeShape_envelope ctx.now "Not Found" 404

/-- Witness for C10 at a concrete 404 response. -/
theorem C10_witness :
    errorEnvelopeShape "T" ⟨404, .json (errEnvelope "Not Found" 404 "T"), true⟩ = true :=
  C10_error_envelope_invariant ctxT (some instNoAgent) "/missing" reqHello
    ⟨404, .json (errEnvelope "Not Found" 404 "T"), true⟩ (Or.inl rfl) (by decide)
